import Mathlib

/-!
# G2 calibration and Bermudan swaption pricing driver (`src/main.cpp`)

A shallow embedding of the driver program: its constant tables, the index
arithmetic on `Size` values, the loop that builds the calibration helpers,
the report loop of `calibrateModel`, the construction of the exercise dates
and the `try`/`catch` frame of `main`.  Calls into the pricing library are
fields of a `Library` record; each of them may throw.  The model object shared
by the engines is treated apart, on a heap that the library calls may write.
-/

namespace BermudanSwaption

/-! ## Machine arithmetic on `Size` (a 64-bit unsigned integer) -/

/-- Number of values of the type `Size`. -/
def sizeModulus : Nat := 2 ^ 64

/-- Unsigned `a + b` on `Size`. -/
def Size.add (a b : Nat) : Nat := (a + b) % sizeModulus

/-- Unsigned `a - b` on `Size`, for `a < sizeModulus`. -/
def Size.sub (a b : Nat) : Nat := (a + sizeModulus - b % sizeModulus) % sizeModulus

/-- Unsigned `a * b` on `Size`. -/
def Size.mul (a b : Nat) : Nat := (a * b) % sizeModulus

/-! ## Failure modes -/

/-- Ways in which a statement of the `try` block may fail to complete. -/
inductive Abort where
  /-- An exception derived from `std::exception`, carrying `what()`. -/
  | stdException (what : String)
  /-- Any other thrown value. -/
  | other
  /-- An out-of-range subscript or a null dereference: not an exception. -/
  | undefinedBehaviour
  deriving DecidableEq, Repr

/-- Subscript `xs[n]` of an array or vector: defined only inside the bounds. -/
def index {α : Type} (xs : List α) (n : Nat) : Except Abort α :=
  match xs[n]? with
  | some x => .ok x
  | none => .error .undefinedBehaviour

/-- The loop `for (i = start; i < start + n; i++) s = body(i, s)`, threading the
state `s` and stopping at the first failure. -/
def forRange {σ : Type} (body : Nat → σ → Except Abort σ) : Nat → Nat → σ → Except Abort σ
  | 0, _, s => .ok s
  | n + 1, i, s =>
    match body i s with
    | .ok s' => forRange body n (i + 1) s'
    | .error e => .error e

/-! ## Periods -/

/-- Time units used by the program. -/
inductive TimeUnit where
  | Months
  | Years
  deriving DecidableEq, Repr

/-- A `Period`: a length and a unit. -/
structure Period where
  length : Int
  units : TimeUnit
  deriving DecidableEq, Repr

/-- Modelled from the spec: the ordering of tenors ("ordered by increasing
tenor"), which `std::map<Period, ...>` uses through the library's comparison of
`Period` values, not part of the sources: periods in the same unit compare by
length, and a year counts as twelve months. -/
def Period.lt (p q : Period) : Bool :=
  match p.units, q.units with
  | .Months, .Months => decide (p.length < q.length)
  | .Years, .Years => decide (p.length < q.length)
  | .Months, .Years => decide (p.length < 12 * q.length)
  | .Years, .Months => decide (12 * p.length < q.length)

/-- Length of a period in months. -/
def Period.months (p : Period) : Int :=
  match p.units with
  | .Months => p.length
  | .Years => 12 * p.length

/-! ## Constant tables (lines 13-26 and 109-115) -/

/-- Global `numRows`. -/
def numRows : Nat := 6

/-- Global `numCols`. -/
def numCols : Nat := 6

/-- Global `swapLengths`. -/
def swapLengths : List Int := [1, 2, 3, 4, 5, 7]

/-- Global `swaptionVols`, row by row. -/
def swaptionVols : List ℚ :=
  [0.3556, 0.3742, 0.3734, 0.3664, 0.3561, 0.3428,
   0.3936, 0.3901, 0.3802, 0.3682, 0.3557, 0.3382,
   0.3834, 0.3728, 0.3643, 0.3560, 0.3471, 0.3270,
   0.3643, 0.3502, 0.3407, 0.3306, 0.3202, 0.3024,
   0.3378, 0.3261, 0.3174, 0.3082, 0.2994, 0.2853,
   0.2863, 0.2792, 0.2737, 0.2672, 0.2620, 0.2564]

/-- Local `swaptionMaturities` of `main`, after the six `emplace_back` calls. -/
def swaptionMaturities : List Period :=
  [⟨1, .Years⟩, ⟨2, .Years⟩, ⟨3, .Years⟩, ⟨4, .Years⟩, ⟨5, .Years⟩, ⟨7, .Years⟩]

/-! ## The OIS quotes and the curve instruments (lines 80-100) -/

/-- The initializer list of `longOisQuotes`, in the order written. -/
def longOisQuotesInit : List (Period × ℚ) :=
  [(⟨3, .Months⟩, 0.05417),
   (⟨6, .Months⟩, 0.05494),
   (⟨12, .Months⟩, 0.0548),
   (⟨2, .Years⟩, 0.04949),
   (⟨3, .Years⟩, 0.04598),
   (⟨4, .Years⟩, 0.04371),
   (⟨5, .Years⟩, 0.04231),
   (⟨7, .Years⟩, 0.04068)]

/-- Insertion of one entry into a `std::map<Period, _>` held as the list of its
entries in iteration order: the entry goes before the first greater key, and an
entry with an equivalent key is left as it is. -/
def mapInsert (e : Period × ℚ) : List (Period × ℚ) → List (Period × ℚ)
  | [] => [e]
  | x :: xs =>
    if Period.lt e.1 x.1 then e :: x :: xs
    else if Period.lt x.1 e.1 then x :: mapInsert e xs
    else x :: xs

/-- Construction of a `std::map` from an initializer list: the entries are
inserted one after the other. -/
def mapOfInit (init : List (Period × ℚ)) : List (Period × ℚ) :=
  init.foldl (fun m e => mapInsert e m) []

/-- The map `longOisQuotes`, as iterated. -/
def longOisQuotes : List (Period × ℚ) := mapOfInit longOisQuotesInit

/-- Arguments of an `OISRateHelper`. -/
structure OISRateHelper where
  settlementDays : Nat
  tenor : Period
  quote : ℚ
  deriving DecidableEq, Repr

/-- The loop over `longOisQuotes` that fills `sofrInstruments`. -/
def sofrInstruments : List OISRateHelper :=
  longOisQuotes.foldl (fun acc q => acc ++ [⟨2, q.1, q.2⟩]) []

/-! ## Calibration helpers, cash flows, model parameters -/

/-- Arguments of a `SwaptionHelper`: option maturity, length of the underlying
swap, quoted volatility. -/
structure SwaptionHelper where
  maturity : Period
  length : Period
  volatility : ℚ
  deriving DecidableEq, Repr

/-- A calendar date, as a serial number. -/
abbrev Date := Nat

/-- A coupon: a cash flow with an accrual period. -/
structure Coupon where
  accrualStartDate : Date
  accrualEndDate : Date
  paymentDate : Date
  amount : ℚ
  deriving DecidableEq, Repr

/-- A cash flow of a leg: a coupon, or a payment that is no coupon. -/
inductive CashFlow where
  | coupon (c : Coupon)
  | simple (paymentDate : Date) (amount : ℚ)
  deriving DecidableEq, Repr

/-- The cast `ext::dynamic_pointer_cast<Coupon>`: null on a cash flow that is no
coupon. -/
def dynamicPointerCastCoupon : CashFlow → Option Coupon
  | .coupon c => some c
  | .simple _ _ => none

/-- The parameter array of the G2 model, printed as a, sigma, b, eta, rho. -/
structure G2Params where
  a : ℚ
  sigma : ℚ
  b : ℚ
  eta : ℚ
  rho : ℚ
  deriving DecidableEq, Repr

/-- Arguments of `EndCriteria`. -/
structure EndCriteria where
  maxIterations : Nat
  maxStationaryStateIterations : Nat
  rootEpsilon : ℚ
  functionEpsilon : ℚ
  gradientNormEpsilon : ℚ
  deriving DecidableEq, Repr

/-- One line of the calibration report. -/
structure ReportRow where
  optionLabel : Nat
  swapLabel : Int
  implied : ℚ
  market : ℚ
  diff : ℚ
  deriving DecidableEq, Repr

/-- What `main` prints when it runs to the end. -/
structure Output where
  report : List ReportRow
  params : G2Params
  treeNPV : ℚ
  fdNPV : ℚ
  deriving DecidableEq, Repr

/-- The calls into the pricing library made by the program.  Each may throw.
In this record the model parameters are passed by value: `calibrate` returns
the parameters it leaves and the other calls read the parameters they are
given.  The section on the model as a shared object lets every call that is
handed the model write it. -/
structure Library where
  /-- Handle to a bootstrapped term structure. -/
  Curve : Type
  /-- A vanilla swap. -/
  Swap : Type
  /-- A swaption on a swap with its exercise dates. -/
  Swaption : Type
  /-- Constructor `PiecewiseYieldCurve<Discount, LogLinear>` on the instruments. -/
  piecewiseYieldCurve : List OISRateHelper → Except Abort Curve
  /-- Member `addTimesTo` of a helper. -/
  addTimesTo : Curve → SwaptionHelper → List ℚ → Except Abort (List ℚ)
  /-- Constructor `TimeGrid(times.begin(), times.end(), steps)`. -/
  timeGrid : List ℚ → Nat → Except Abort Unit
  /-- Constructor `G2(termStructure)`. -/
  g2 : Curve → Except Abort G2Params
  /-- Member `ShortRateModel::calibrate` with Levenberg-Marquardt and the end criteria. -/
  calibrate : Curve → G2Params → List SwaptionHelper → EndCriteria → Except Abort G2Params
  /-- Member `modelValue()` of a helper priced by `G2SwaptionEngine(model, 6.0, 16)`. -/
  modelValue : Curve → G2Params → SwaptionHelper → Except Abort ℚ
  /-- Member `impliedVolatility(target, accuracy, maxEvaluations, minVol, maxVol)`. -/
  impliedVolatility : Curve → SwaptionHelper → ℚ → ℚ → Nat → ℚ → ℚ → Except Abort ℚ
  /-- The 3-year quarterly payer swap with its discounting engine. -/
  vanillaSwap : Curve → Except Abort Swap
  /-- Member `fixedLeg()` of the swap. -/
  fixedLeg : Swap → List CashFlow
  /-- Constructors `BermudanExercise(dates)` and `Swaption(swap, exercise)`. -/
  swaption : Swap → List Date → Except Abort Swaption
  /-- Value `NPV()` under `TreeSwaptionEngine(model, steps)`. -/
  treeNPV : G2Params → Nat → Swaption → Except Abort ℚ
  /-- Value `NPV()` under `FdG2SwaptionEngine(model)`. -/
  fdNPV : G2Params → Swaption → Except Abort ℚ

/-! ## The loops of `main` and `calibrateModel` -/

/-- Lines 124-135 of the loop body: the helper built at index `i`. -/
def makeHelper (i : Nat) : Except Abort SwaptionHelper := do
  let j := Size.sub (Size.sub numCols i) 1
  let k := Size.add (Size.mul i numCols) j
  let vol ← index swaptionVols k
  let maturity ← index swaptionMaturities i
  let len ← index swapLengths j
  pure ⟨maturity, ⟨len, .Years⟩, vol⟩

/-- Body of the loop at lines 123-137: builds helper `i`, appends it to
`swaptions` and adds its times to `times`. -/
def swaptionLoopBody (lib : Library) (curve : lib.Curve) (i : Nat)
    (s : List SwaptionHelper × List ℚ) : Except Abort (List SwaptionHelper × List ℚ) := do
  let helper ← makeHelper i
  let times ← lib.addTimesTo curve helper s.2
  pure (s.1 ++ [helper], times)

/-- The loop at lines 123-137. -/
def swaptionLoop (lib : Library) (curve : lib.Curve) :
    Except Abort (List SwaptionHelper × List ℚ) :=
  forRange (swaptionLoopBody lib curve) numRows 0 ([], [])

/-- Lower end of the implied-volatility search bracket (line 43). -/
def impliedVolMin : ℚ := 0.05

/-- Upper end of the implied-volatility search bracket (line 43). -/
def impliedVolMax : ℚ := 0.50

/-- Body of the report loop of `calibrateModel` (lines 38-53). -/
def reportLoopBody (lib : Library) (curve : lib.Curve) (model : G2Params)
    (swaptions : List SwaptionHelper) (i : Nat) (rows : List ReportRow) :
    Except Abort (List ReportRow) := do
  let j := Size.sub (Size.sub numCols i) 1
  let k := Size.add (Size.mul i numCols) j
  let helper ← index swaptions i
  let npv ← lib.modelValue curve model helper
  let implied ← lib.impliedVolatility curve helper npv 1e-4 1000 impliedVolMin impliedVolMax
  let market ← index swaptionVols k
  let diff := implied - market
  let len ← index swapLengths j
  pure (rows ++ [⟨Size.add i 1, len, implied, market, diff⟩])

/-- The function `calibrateModel`: calibrates, then reports row by row. -/
def calibrateModel (lib : Library) (curve : lib.Curve) (model : G2Params)
    (swaptions : List SwaptionHelper) : Except Abort (G2Params × List ReportRow) := do
  let helpers := swaptions
  let model ← lib.calibrate curve model helpers ⟨400, 100, 1.0e-8, 1.0e-8, 1.0e-8⟩
  let rows ← forRange (reportLoopBody lib curve model swaptions) numRows 0 []
  pure (model, rows)

/-- Body of the loop at lines 192-195: casts cash flow `i` to a coupon and
appends its accrual start date. -/
def exerciseLoopBody (leg : List CashFlow) (i : Nat) (dates : List Date) :
    Except Abort (List Date) := do
  let cf ← index leg i
  match dynamicPointerCastCoupon cf with
  | some coupon => pure (dates ++ [coupon.accrualStartDate])
  | none => .error .undefinedBehaviour

/-- The vector `bermudanDates` built at lines 188-195. -/
def bermudanDates (leg : List CashFlow) : Except Abort (List Date) :=
  forRange (exerciseLoopBody leg) leg.length 0 []

/-! ## `main` -/

/-- The `try` block of `main` (lines 58-207). -/
def mainBody (lib : Library) : Except Abort Output := do
  let sofrTermStructure ← lib.piecewiseYieldCurve sofrInstruments
  let (swaptions, times) ← swaptionLoop lib sofrTermStructure
  let _grid ← lib.timeGrid times 30
  let modelG2 ← lib.g2 sofrTermStructure
  let (modelG2, report) ← calibrateModel lib sofrTermStructure modelG2 swaptions
  let params := modelG2
  let swap ← lib.vanillaSwap sofrTermStructure
  let dates ← bermudanDates (lib.fixedLeg swap)
  let bermudanSwaption ← lib.swaption swap dates
  let tree ← lib.treeNPV modelG2 50 bermudanSwaption
  let fd ← lib.fdNPV modelG2 bermudanSwaption
  pure ⟨report, params, tree, fd⟩

/-- The function `main`: the exit status, when the run has defined behaviour. -/
def main (lib : Library) : Option Int :=
  match mainBody lib with
  | .ok _ => some 0
  | .error (.stdException _) => some 1
  | .error .other => some 1
  | .error .undefinedBehaviour => none

/-! ## Predicates used in the statements -/

/-- The accrual start dates of the coupons of a leg, in the order of the leg. -/
def accrualStartDates (leg : List CashFlow) : List Date :=
  leg.filterMap (fun cf => (dynamicPointerCastCoupon cf).map Coupon.accrualStartDate)

/-- The content of report row `m` for the helpers `swaptions` under the
calibrated parameters `model`. -/
def IsReportRow (lib : Library) (curve : lib.Curve) (model : G2Params)
    (swaptions : List SwaptionHelper) (m : Nat) (r : ReportRow) : Prop :=
  ∃ helper npv, swaptions[m]? = some helper ∧
    lib.modelValue curve model helper = .ok npv ∧
    lib.impliedVolatility curve helper npv 1e-4 1000 impliedVolMin impliedVolMax
      = .ok r.implied ∧
    swaptionVols[Size.add (Size.mul m numCols) (Size.sub (Size.sub numCols m) 1)]?
      = some r.market ∧
    r.diff = r.implied - r.market ∧
    r.optionLabel = Size.add m 1 ∧
    swapLengths[Size.sub (Size.sub numCols m) 1]? = some r.swapLabel

/-- Every call of the `try` block completes, and `out` is what is printed. -/
def Completes (lib : Library) (out : Output) : Prop :=
  ∃ (curve : lib.Curve) (swaptions : List SwaptionHelper) (times : List ℚ)
    (m0 m1 : G2Params) (report : List ReportRow) (swap : lib.Swap) (dates : List Date)
    (bermudan : lib.Swaption) (tree fd : ℚ),
    lib.piecewiseYieldCurve sofrInstruments = .ok curve ∧
    swaptionLoop lib curve = .ok (swaptions, times) ∧
    lib.timeGrid times 30 = .ok () ∧
    lib.g2 curve = .ok m0 ∧
    calibrateModel lib curve m0 swaptions = .ok (m1, report) ∧
    lib.vanillaSwap curve = .ok swap ∧
    bermudanDates (lib.fixedLeg swap) = .ok dates ∧
    lib.swaption swap dates = .ok bermudan ∧
    lib.treeNPV m1 50 bermudan = .ok tree ∧
    lib.fdNPV m1 bermudan = .ok fd ∧
    out = ⟨report, m1, tree, fd⟩

/-- Some stage of the `try` block fails with `e`, all the stages before it
having completed: the bootstrap of the curve, the construction of the helpers
and of the time grid, the model and its calibration with the report, the
construction of the Bermudan swaption, the tree price, the finite-difference
price. -/
def FailsWith (lib : Library) (e : Abort) : Prop :=
  lib.piecewiseYieldCurve sofrInstruments = .error e ∨
  ∃ curve, lib.piecewiseYieldCurve sofrInstruments = .ok curve ∧
  (swaptionLoop lib curve = .error e ∨
  ∃ swaptions times, swaptionLoop lib curve = .ok (swaptions, times) ∧
  (lib.timeGrid times 30 = .error e ∨
  ∃ grid, lib.timeGrid times 30 = .ok grid ∧
  (lib.g2 curve = .error e ∨
  ∃ m0, lib.g2 curve = .ok m0 ∧
  (calibrateModel lib curve m0 swaptions = .error e ∨
  ∃ m1 report, calibrateModel lib curve m0 swaptions = .ok (m1, report) ∧
  (lib.vanillaSwap curve = .error e ∨
  ∃ swap, lib.vanillaSwap curve = .ok swap ∧
  (bermudanDates (lib.fixedLeg swap) = .error e ∨
  ∃ dates, bermudanDates (lib.fixedLeg swap) = .ok dates ∧
  (lib.swaption swap dates = .error e ∨
  ∃ bermudan, lib.swaption swap dates = .ok bermudan ∧
  (lib.treeNPV m1 50 bermudan = .error e ∨
  ∃ tree, lib.treeNPV m1 50 bermudan = .ok tree ∧
  lib.fdNPV m1 bermudan = .error e))))))))

/-! ## Concrete instances -/

/-- A leg of three coupons. -/
def exampleLeg : List CashFlow :=
  [.coupon ⟨45169, 45261, 45261, 167⟩, .coupon ⟨45261, 45352, 45352, 165⟩,
   .coupon ⟨45352, 45443, 45443, 165⟩]

/-- A library in which every call completes: the model reprices each helper at
its quoted volatility and the implied-volatility solver returns its target. -/
def exampleLibrary : Library where
  Curve := Unit
  Swap := List CashFlow
  Swaption := List CashFlow × List Date
  piecewiseYieldCurve := fun _ => .ok ()
  addTimesTo := fun _ _ times => .ok times
  timeGrid := fun _ _ => .ok ()
  g2 := fun _ => .ok ⟨0.1, 0.01, 0.1, 0.01, -0.75⟩
  calibrate := fun _ _ _ _ => .ok ⟨0.05, 0.009, 0.5, 0.011, -0.7⟩
  modelValue := fun _ _ helper => .ok helper.volatility
  impliedVolatility := fun _ _ target _ _ _ _ => .ok target
  vanillaSwap := fun _ => .ok exampleLeg
  fixedLeg := fun swap => swap
  swaption := fun swap dates => .ok (swap, dates)
  treeNPV := fun params _ _ => .ok (100 * params.sigma)
  fdNPV := fun params _ => .ok (101 * params.sigma)

/-- A library whose tree engine throws a value that is no `std::exception`. -/
def throwingLibrary : Library :=
  { exampleLibrary with treeNPV := fun _ _ _ => .error .other }

/-- The helpers built by the loop of `main`. -/
def exampleSwaptions : List SwaptionHelper :=
  [⟨⟨1, .Years⟩, ⟨7, .Years⟩, 0.3428⟩, ⟨⟨2, .Years⟩, ⟨5, .Years⟩, 0.3557⟩,
   ⟨⟨3, .Years⟩, ⟨4, .Years⟩, 0.3560⟩, ⟨⟨4, .Years⟩, ⟨3, .Years⟩, 0.3407⟩,
   ⟨⟨5, .Years⟩, ⟨2, .Years⟩, 0.3261⟩, ⟨⟨7, .Years⟩, ⟨1, .Years⟩, 0.2863⟩]

/-- The report of `calibrateModel` under `exampleLibrary`. -/
def exampleRows : List ReportRow :=
  [⟨1, 7, 0.3428, 0.3428, 0.3428 - 0.3428⟩, ⟨2, 5, 0.3557, 0.3557, 0.3557 - 0.3557⟩,
   ⟨3, 4, 0.3560, 0.3560, 0.3560 - 0.3560⟩, ⟨4, 3, 0.3407, 0.3407, 0.3407 - 0.3407⟩,
   ⟨5, 2, 0.3261, 0.3261, 0.3261 - 0.3261⟩, ⟨6, 1, 0.2863, 0.2863, 0.2863 - 0.2863⟩]

/-- The output of `main` under `exampleLibrary`. -/
def exampleOutput : Output :=
  ⟨exampleRows, ⟨0.05, 0.009, 0.5, 0.011, -0.7⟩, 100 * 0.009, 101 * 0.009⟩

/-! ## The model as a shared object (lines 28-54 and 144-203)

`modelG2` is a `shared_ptr` to a mutable model; every engine is constructed on
that pointer.  Here the models live on a heap, an engine holds the reference it
was constructed with, and every library call that is handed a model, directly
or through an engine, receives the heap and returns the heap it leaves. -/

/-- Reference to a model object: its position on the heap. -/
abbrev ModelRef := Nat

/-- The parameters of the model objects created so far. -/
abbrev Heap := List G2Params

/-- A pricing engine with the model reference and arguments of its constructor. -/
inductive Engine where
  /-- Engine `G2SwaptionEngine(model, range, intervals)`. -/
  | g2Swaption (model : ModelRef) (range : ℚ) (intervals : Nat)
  /-- Engine `TreeSwaptionEngine(model, timeSteps)`. -/
  | treeSwaption (model : ModelRef) (timeSteps : Nat)
  /-- Engine `FdG2SwaptionEngine(model)`. -/
  | fdG2Swaption (model : ModelRef)
  deriving DecidableEq, Repr

/-- The library calls of lines 28-54 and 144-203.  A call that is handed a
model may write the heap: its result carries the heap after the call. -/
structure SharedLibrary where
  /-- Handle to a bootstrapped term structure. -/
  Curve : Type
  /-- The Bermudan swaption of lines 161-198. -/
  Swaption : Type
  /-- Constructor `G2(termStructure)`: the parameters of the new object. -/
  g2 : Curve → Except Abort G2Params
  /-- Construction of an engine on the model it refers to. -/
  engine : Heap → Engine → Except Abort Heap
  /-- Member `calibrate` of the model at the reference, on helpers with their engines. -/
  calibrate : Heap → ModelRef → List (SwaptionHelper × Engine) → EndCriteria →
    Except Abort Heap
  /-- Member `modelValue()` of a helper with its engine. -/
  modelValue : Heap → SwaptionHelper × Engine → Except Abort (ℚ × Heap)
  /-- Member `impliedVolatility(target, accuracy, maxEvaluations, minVol, maxVol)`. -/
  impliedVolatility : Heap → SwaptionHelper × Engine → ℚ → ℚ → Nat → ℚ → ℚ →
    Except Abort (ℚ × Heap)
  /-- Lines 161-198: the swap, the exercise dates and the swaption; no model is passed. -/
  bermudanSwaption : Curve → Except Abort Swaption
  /-- Member `NPV()` of the swaption under the engine attached to it. -/
  npv : Heap → Swaption → Engine → Except Abort (ℚ × Heap)

/-- The heap, and the heaps left by the calls made so far, oldest first. -/
structure Run where
  heap : Heap
  log : List Heap
  deriving DecidableEq, Repr

/-- The run after a call that left `heap`. -/
def Run.record (r : Run) (heap : Heap) : Run := ⟨heap, r.log ++ [heap]⟩

/-- Body of the loop at lines 149-150: helper `i` gets a new
`G2SwaptionEngine(modelG2, 6.0, 16)`. -/
def engineLoopBody (lib : SharedLibrary) (modelG2 : ModelRef)
    (swaptions : List SwaptionHelper) (i : Nat)
    (s : List (SwaptionHelper × Engine) × Run) :
    Except Abort (List (SwaptionHelper × Engine) × Run) := do
  let helper ← index swaptions i
  let engine := Engine.g2Swaption modelG2 6.0 16
  let heap ← lib.engine s.2.heap engine
  pure (s.1 ++ [(helper, engine)], s.2.record heap)

/-- Body of the report loop of `calibrateModel` (lines 38-53), on the heap. -/
def sharedReportLoopBody (lib : SharedLibrary) (swaptions : List (SwaptionHelper × Engine))
    (i : Nat) (s : List ReportRow × Run) : Except Abort (List ReportRow × Run) := do
  let j := Size.sub (Size.sub numCols i) 1
  let k := Size.add (Size.mul i numCols) j
  let helper ← index swaptions i
  let (npv, heap) ← lib.modelValue s.2.heap helper
  let run := s.2.record heap
  let (implied, heap) ←
    lib.impliedVolatility run.heap helper npv 1e-4 1000 impliedVolMin impliedVolMax
  let run := run.record heap
  let market ← index swaptionVols k
  let diff := implied - market
  let len ← index swapLengths j
  pure (s.1 ++ [⟨Size.add i 1, len, implied, market, diff⟩], run)

/-- The function `calibrateModel` (lines 28-54), on the heap: one `calibrate`
call on `model`, then the report loop. -/
def sharedCalibrateModel (lib : SharedLibrary) (run : Run) (model : ModelRef)
    (swaptions : List (SwaptionHelper × Engine)) : Except Abort (List ReportRow × Run) := do
  let helpers := swaptions
  let heap ← lib.calibrate run.heap model helpers ⟨400, 100, 1.0e-8, 1.0e-8, 1.0e-8⟩
  let run := run.record heap
  forRange (sharedReportLoopBody lib swaptions) numRows 0 ([], run)

/-- What lines 144-203 print, the engines attached for the two prices, and the
heaps left by the calls. -/
structure SharedOutput where
  report : List ReportRow
  params : G2Params
  treeEngine : Engine
  treeNPV : ℚ
  fdEngine : Engine
  fdNPV : ℚ
  log : List Heap
  deriving DecidableEq, Repr

/-- Lines 144-203 of `main`, from the curve and the helpers built before: the
model is created on an empty heap, every helper gets its engine,
`calibrateModel` runs, the parameters are printed, the swaption is built and
priced under a tree engine and then under a finite-difference engine. -/
def sharedModelRun (lib : SharedLibrary) (curve : lib.Curve)
    (swaptions : List SwaptionHelper) : Except Abort SharedOutput := do
  let created ← lib.g2 curve
  let modelG2 : ModelRef := ([] : Heap).length
  let run : Run := ⟨[] ++ [created], [[] ++ [created]]⟩
  let (helpers, run) ←
    forRange (engineLoopBody lib modelG2 swaptions) swaptions.length 0 ([], run)
  let (report, run) ← sharedCalibrateModel lib run modelG2 helpers
  let params ← index run.heap modelG2
  let bermudanSwaption ← lib.bermudanSwaption curve
  let treeEngine := Engine.treeSwaption modelG2 50
  let heap ← lib.engine run.heap treeEngine
  let run := run.record heap
  let (tree, heap) ← lib.npv run.heap bermudanSwaption treeEngine
  let run := run.record heap
  let fdEngine := Engine.fdG2Swaption modelG2
  let heap ← lib.engine run.heap fdEngine
  let run := run.record heap
  let (fd, heap) ← lib.npv run.heap bermudanSwaption fdEngine
  let run := run.record heap
  pure ⟨report, params, treeEngine, tree, fdEngine, fd, run.log⟩

/-- Modelled from the spec: the frame of the library calls that are handed the
model, whose code is not part of the sources.  The model parameters are
"mutated only by CalibrationEngine during optimization; read by all pricing
engines", and calibration "mutates the ShortRateModel's parameters in place;
this is the only path by which model parameters change after construction":
constructing an engine, `modelValue`, `impliedVolatility` and `NPV` leave the
heap as it is, and `calibrate` writes the model it is called on and no other. -/
def FollowsSpec (lib : SharedLibrary) : Prop :=
  (∀ heap engine heap', lib.engine heap engine = .ok heap' → heap' = heap) ∧
  (∀ heap helper value heap',
    lib.modelValue heap helper = .ok (value, heap') → heap' = heap) ∧
  (∀ heap helper target accuracy evaluations lo hi value heap',
    lib.impliedVolatility heap helper target accuracy evaluations lo hi
      = .ok (value, heap') → heap' = heap) ∧
  (∀ heap swaption engine value heap',
    lib.npv heap swaption engine = .ok (value, heap') → heap' = heap) ∧
  (∀ heap model helpers criteria heap',
    lib.calibrate heap model helpers criteria = .ok heap' →
      heap'.length = heap.length ∧ ∀ r, r ≠ model → heap'[r]? = heap[r]?)

/-- A library that follows the frame of the spec: calibration writes fixed
parameters into the model it is called on, the helpers reprice at their quotes,
and the two engines price from the volatility `sigma` of the model they refer
to. -/
def exampleSharedLibrary : SharedLibrary where
  Curve := Unit
  Swaption := List Date
  g2 := fun _ => .ok ⟨0.1, 0.01, 0.1, 0.01, -0.75⟩
  engine := fun heap _ => .ok heap
  calibrate := fun heap model _ _ => .ok (heap.set model ⟨0.05, 0.009, 0.5, 0.011, -0.7⟩)
  modelValue := fun heap helper => .ok (helper.1.volatility, heap)
  impliedVolatility := fun heap _ target _ _ _ _ => .ok (target, heap)
  bermudanSwaption := fun _ => .ok [45169, 45261, 45352]
  npv := fun heap _ engine =>
    match engine with
    | .treeSwaption model _ =>
      match heap[model]? with
      | some p => .ok (100 * p.sigma, heap)
      | none => .error .undefinedBehaviour
    | .fdG2Swaption model =>
      match heap[model]? with
      | some p => .ok (101 * p.sigma, heap)
      | none => .error .undefinedBehaviour
    | .g2Swaption _ _ _ => .error .other

/-- A library outside the frame of the spec: pricing under the tree engine
doubles the volatility `sigma` of the model the engine refers to. -/
def perturbingLibrary : SharedLibrary :=
  { exampleSharedLibrary with
    npv := fun heap _ engine =>
      match engine with
      | .treeSwaption model _ =>
        match heap[model]? with
        | some p => .ok (100 * p.sigma, heap.set model { p with sigma := 2 * p.sigma })
        | none => .error .undefinedBehaviour
      | .fdG2Swaption model =>
        match heap[model]? with
        | some p => .ok (101 * p.sigma, heap)
        | none => .error .undefinedBehaviour
      | .g2Swaption _ _ _ => .error .other }

/-- The output of lines 144-203 under `exampleSharedLibrary`. -/
def exampleSharedOutput : SharedOutput :=
  ⟨exampleRows, ⟨0.05, 0.009, 0.5, 0.011, -0.7⟩,
   .treeSwaption 0 50, 100 * 0.009, .fdG2Swaption 0, 101 * 0.009,
   List.replicate 7 [⟨0.1, 0.01, 0.1, 0.01, -0.75⟩]
     ++ List.replicate 17 [⟨0.05, 0.009, 0.5, 0.011, -0.7⟩]⟩

/-! ## Auxiliary facts -/

/-- A sequence of two steps completes when both do. -/
theorem bind_eq_ok {α β : Type} (x : Except Abort α) (f : α → Except Abort β) (b : β) :
    (x >>= f) = .ok b ↔ ∃ a, x = .ok a ∧ f a = .ok b := by
  cases x <;> simp [bind, Except.bind]

/-- A sequence of two steps fails at its first failing step. -/
theorem bind_eq_error {α β : Type} (x : Except Abort α) (f : α → Except Abort β) (e : Abort) :
    (x >>= f) = .error e ↔ x = .error e ∨ ∃ a, x = .ok a ∧ f a = .error e := by
  cases x <;> simp [bind, Except.bind]

/-- A subscript is defined exactly inside the bounds. -/
theorem index_eq_ok {α : Type} (xs : List α) (n : Nat) (x : α) :
    index xs n = .ok x ↔ xs[n]? = some x := by
  unfold index
  cases h : xs[n]? <;> simp

/-- A volatility no further than 0.05 from a quote in [0.10, 0.45] lies in the
search bracket. -/
theorem bracket_of_near (m v : ℚ) (hlo : (0.10 : ℚ) ≤ m) (hhi : m ≤ (0.45 : ℚ))
    (hv : |v - m| ≤ (0.05 : ℚ)) : impliedVolMin ≤ v ∧ v ≤ impliedVolMax := by
  rw [abs_le] at hv
  unfold impliedVolMin impliedVolMax
  constructor
  · norm_num at hv hlo ⊢
    linarith [hv.1]
  · norm_num at hv hhi ⊢
    linarith [hv.2]

/-- The cells selected for rows 0 to 5. -/
theorem selected_cells :
    Size.add (Size.mul 0 numCols) (Size.sub (Size.sub numCols 0) 1) = 5 ∧
    Size.add (Size.mul 1 numCols) (Size.sub (Size.sub numCols 1) 1) = 10 ∧
    Size.add (Size.mul 2 numCols) (Size.sub (Size.sub numCols 2) 1) = 15 ∧
    Size.add (Size.mul 3 numCols) (Size.sub (Size.sub numCols 3) 1) = 20 ∧
    Size.add (Size.mul 4 numCols) (Size.sub (Size.sub numCols 4) 1) = 25 ∧
    Size.add (Size.mul 5 numCols) (Size.sub (Size.sub numCols 5) 1) = 30 := by
  refine ⟨?_, ?_, ?_, ?_, ?_, ?_⟩ <;> decide

/-- The helpers built at the six indices. -/
theorem makeHelper_values :
    makeHelper 0 = .ok ⟨⟨1, .Years⟩, ⟨7, .Years⟩, 0.3428⟩ ∧
    makeHelper 1 = .ok ⟨⟨2, .Years⟩, ⟨5, .Years⟩, 0.3557⟩ ∧
    makeHelper 2 = .ok ⟨⟨3, .Years⟩, ⟨4, .Years⟩, 0.3560⟩ ∧
    makeHelper 3 = .ok ⟨⟨4, .Years⟩, ⟨3, .Years⟩, 0.3407⟩ ∧
    makeHelper 4 = .ok ⟨⟨5, .Years⟩, ⟨2, .Years⟩, 0.3261⟩ ∧
    makeHelper 5 = .ok ⟨⟨7, .Years⟩, ⟨1, .Years⟩, 0.2863⟩ :=
  ⟨rfl, rfl, rfl, rfl, rfl, rfl⟩

/-- The instruments in the order of construction. -/
theorem sofrInstruments_eq :
    sofrInstruments =
      [⟨2, ⟨3, .Months⟩, 0.05417⟩, ⟨2, ⟨6, .Months⟩, 0.05494⟩, ⟨2, ⟨12, .Months⟩, 0.0548⟩,
       ⟨2, ⟨2, .Years⟩, 0.04949⟩, ⟨2, ⟨3, .Years⟩, 0.04598⟩, ⟨2, ⟨4, .Years⟩, 0.04371⟩,
       ⟨2, ⟨5, .Years⟩, 0.04231⟩, ⟨2, ⟨7, .Years⟩, 0.04068⟩] := by
  rfl

/-! ## Loop invariants and the shape of a run -/

/-- An invariant kept by every completed iteration holds when the loop
completes. -/
theorem forRange_inv {σ : Type} (body : Nat → σ → Except Abort σ) (P : Nat → σ → Prop)
    (hstep : ∀ i s s', P i s → body i s = .ok s' → P (i + 1) s') :
    ∀ n i s s', P i s → forRange body n i s = .ok s' → P (i + n) s' := by
  intro n
  induction n with
  | zero =>
    intro i s s' hP h
    simp only [forRange, Except.ok.injEq] at h
    subst h
    simpa using hP
  | succ n ih =>
    intro i s s' hP h
    unfold forRange at h
    cases hb : body i s with
    | error e => simp [hb] at h
    | ok s1 =>
      simp only [hb] at h
      have := ih (i + 1) s1 s' (hstep i s s1 hP hb) h
      have e : i + (n + 1) = i + 1 + n := by omega
      rw [e]
      exact this

/-- What a successful `makeHelper i` has read. -/
theorem makeHelper_eq_ok (i : Nat) (h : SwaptionHelper) (hh : makeHelper i = .ok h) :
    swaptionVols[Size.add (Size.mul i numCols) (Size.sub (Size.sub numCols i) 1)]?
      = some h.volatility ∧
    swaptionMaturities[i]? = some h.maturity ∧
    swapLengths[Size.sub (Size.sub numCols i) 1]? = some h.length.length ∧
    h.length.units = .Years := by
  unfold makeHelper at hh
  simp only [bind_eq_ok, index_eq_ok] at hh
  obtain ⟨vol, hvol, mat, hmat, len, hlen, hp⟩ := hh
  simp only [pure, Except.pure, Except.ok.injEq] at hp
  subst hp
  exact ⟨hvol, hmat, hlen, rfl⟩

/-- A completed helper loop has built `numRows` helpers, the one at position
`i` by `makeHelper i`. -/
theorem swaptionLoop_spec (lib : Library) (curve : lib.Curve)
    (swaptions : List SwaptionHelper) (times : List ℚ)
    (h : swaptionLoop lib curve = .ok (swaptions, times)) :
    swaptions.length = numRows ∧
    ∀ i, i < numRows → ∃ helper, swaptions[i]? = some helper ∧ makeHelper i = .ok helper := by
  have key := forRange_inv (swaptionLoopBody lib curve)
    (fun i s => s.1.length = i ∧
      ∀ m, m < i → ∃ helper, s.1[m]? = some helper ∧ makeHelper m = .ok helper)
    (by
      intro i s s' hP hb
      unfold swaptionLoopBody at hb
      simp only [bind_eq_ok] at hb
      obtain ⟨helper, hmk, t, _, hp⟩ := hb
      simp only [pure, Except.pure, Except.ok.injEq] at hp
      subst hp
      obtain ⟨hlen, hall⟩ := hP
      refine ⟨by simp [hlen], ?_⟩
      intro m hm
      rcases Nat.lt_succ_iff_lt_or_eq.mp hm with hlt | heq
      · obtain ⟨x, hx, hx'⟩ := hall m hlt
        refine ⟨x, ?_, hx'⟩
        show (s.1 ++ [helper])[m]? = some x
        rw [List.getElem?_append_left (by omega)]
        exact hx
      · subst heq
        refine ⟨helper, ?_, hmk⟩
        show (s.1 ++ [helper])[m]? = some helper
        rw [List.getElem?_append_right (by omega)]
        simp [hlen])
    numRows 0 ([], []) (swaptions, times) ⟨rfl, fun m hm => absurd hm (Nat.not_lt_zero m)⟩ h
  simpa using key

/-- A completed `calibrateModel` has calibrated once and reported `numRows`
rows, row `i` about helper `i`. -/
theorem calibrateModel_spec (lib : Library) (curve : lib.Curve) (model model' : G2Params)
    (swaptions : List SwaptionHelper) (rows : List ReportRow)
    (h : calibrateModel lib curve model swaptions = .ok (model', rows)) :
    lib.calibrate curve model swaptions ⟨400, 100, 1.0e-8, 1.0e-8, 1.0e-8⟩ = .ok model' ∧ rows.length = numRows ∧
    ∀ i, i < numRows → ∃ r, rows[i]? = some r ∧ IsReportRow lib curve model' swaptions i r := by
  unfold calibrateModel at h
  simp only [bind_eq_ok] at h
  obtain ⟨m1, hcal, rs, hloop, hp⟩ := h
  simp only [pure, Except.pure, Except.ok.injEq, Prod.mk.injEq] at hp
  obtain ⟨rfl, rfl⟩ := hp
  refine ⟨hcal, ?_⟩
  have key := forRange_inv (reportLoopBody lib curve m1 swaptions)
    (fun i s => s.length = i ∧
      ∀ m, m < i → ∃ r, s[m]? = some r ∧ IsReportRow lib curve m1 swaptions m r)
    (by
      intro i s s' hP hb
      unfold reportLoopBody at hb
      simp only [bind_eq_ok, index_eq_ok] at hb
      obtain ⟨helper, hhelper, npv, hnpv, implied, himp, market, hmarket, len, hlen', hp⟩ := hb
      simp only [pure, Except.pure, Except.ok.injEq] at hp
      subst hp
      obtain ⟨hlen, hall⟩ := hP
      refine ⟨by simp [hlen], ?_⟩
      intro m hm
      rcases Nat.lt_succ_iff_lt_or_eq.mp hm with hlt | heq
      · obtain ⟨x, hx, hx'⟩ := hall m hlt
        refine ⟨x, ?_, hx'⟩
        rw [List.getElem?_append_left (by omega)]
        exact hx
      · subst heq
        refine ⟨⟨Size.add m 1, len, implied, market, implied - market⟩, ?_,
          helper, npv, hhelper, hnpv, himp, hmarket, rfl, rfl, hlen'⟩
        rw [List.getElem?_append_right (by omega)]
        simp [hlen])
    numRows 0 [] rs ⟨rfl, fun m hm => absurd hm (Nat.not_lt_zero m)⟩ hloop
  simpa using key

/-- The exercise loop from index `i` on, for a leg of coupons: it appends the
accrual start dates of the next `n` cash flows. -/
theorem exerciseLoop_spec (leg : List CashFlow)
    (hall : ∀ cf, cf ∈ leg → ∃ c, cf = .coupon c) :
    ∀ n i acc, i + n ≤ leg.length →
      forRange (exerciseLoopBody leg) n i acc
        = .ok (acc ++ accrualStartDates ((leg.drop i).take n)) := by
  intro n
  induction n with
  | zero =>
    intro i acc _
    simp [forRange, accrualStartDates]
  | succ n ih =>
    intro i acc hle
    have hi : i < leg.length := by omega
    obtain ⟨c, hc⟩ := hall leg[i] (List.getElem_mem hi)
    have hbody : exerciseLoopBody leg i acc = .ok (acc ++ [c.accrualStartDate]) := by
      unfold exerciseLoopBody index
      simp [List.getElem?_eq_getElem hi, hc, dynamicPointerCastCoupon, bind, Except.bind,
        pure, Except.pure]
    unfold forRange
    simp only [hbody]
    rw [ih (i + 1) _ (by omega), List.drop_eq_getElem_cons hi, List.take_succ_cons, hc]
    simp [accrualStartDates, dynamicPointerCastCoupon]

/-- The `try` block completes exactly when every call does. -/
theorem mainBody_eq_ok (lib : Library) (out : Output) :
    mainBody lib = .ok out ↔ Completes lib out := by
  unfold mainBody Completes
  simp only [bind_eq_ok, Prod.exists, pure, Except.pure, Except.ok.injEq]
  constructor
  · rintro ⟨curve, hc, sw, t, hsw, ⟨⟩, hg, m0, hm0, m1, rep, hcal, swap, hswap, dates, hd,
      b, hb, tree, ht, fd, hf, rfl⟩
    exact ⟨curve, sw, t, m0, m1, rep, swap, dates, b, tree, fd,
      hc, hsw, hg, hm0, hcal, hswap, hd, hb, ht, hf, rfl⟩
  · rintro ⟨curve, sw, t, m0, m1, rep, swap, dates, b, tree, fd,
      hc, hsw, hg, hm0, hcal, hswap, hd, hb, ht, hf, rfl⟩
    exact ⟨curve, hc, sw, t, hsw, (), hg, m0, hm0, m1, rep, hcal, swap, hswap, dates, hd,
      b, hb, tree, ht, fd, hf, rfl⟩

/-- The `try` block fails with `e` exactly when its first failing stage does. -/
theorem mainBody_eq_error (lib : Library) (e : Abort) :
    mainBody lib = .error e ↔ FailsWith lib e := by
  unfold mainBody FailsWith
  simp only [bind_eq_error, Prod.exists, pure, Except.pure, reduceCtorEq, and_false,
    exists_false, or_false]

/-! ## Evaluation on the concrete instances -/

/-- The helper loop under `exampleLibrary`. -/
theorem exampleLibrary_swaptionLoop :
    swaptionLoop exampleLibrary () = .ok (exampleSwaptions, []) := by
  rfl

/-- The calibration report under `exampleLibrary`. -/
theorem exampleLibrary_calibrateModel :
    calibrateModel exampleLibrary () ⟨0.1, 0.01, 0.1, 0.01, -0.75⟩ exampleSwaptions
      = .ok (⟨0.05, 0.009, 0.5, 0.011, -0.7⟩, exampleRows) := by
  rfl

/-- The run of `main` under `exampleLibrary`. -/
theorem exampleLibrary_mainBody : mainBody exampleLibrary = .ok exampleOutput := by
  rfl

/-- Under `exampleLibrary` the exit status is 0. -/
theorem exampleLibrary_main : main exampleLibrary = some 0 := by
  rfl

/-- Under `throwingLibrary` the exit status is 1. -/
theorem throwingLibrary_main : main throwingLibrary = some 1 := by
  rfl

/-! ## The calibration report (C1) -/

/-- C1: in a run where the helper loop of `main` and `calibrateModel` complete,
for every row `i < numRows` the volatility with which helper `i` was built and
the market volatility reported in row `i` are the same element
`swaptionVols[k]`, `k = i*numCols + (numCols - i - 1)`, and the reported
difference is the implied volatility of helper `i` under the calibrated model
minus that market volatility. -/
theorem report_market_is_helper_quote (lib : Library) (curve : lib.Curve)
    (m0 m1 : G2Params) (swaptions : List SwaptionHelper) (times : List ℚ)
    (rows : List ReportRow)
    (hmain : swaptionLoop lib curve = .ok (swaptions, times))
    (hcal : calibrateModel lib curve m0 swaptions = .ok (m1, rows))
    (i k : Nat) (hi : i < numRows)
    (hk : k = Size.add (Size.mul i numCols) (Size.sub (Size.sub numCols i) 1)) :
    ∃ helper row npv, swaptions[i]? = some helper ∧ rows[i]? = some row ∧
      swaptionVols[k]? = some helper.volatility ∧
      swaptionVols[k]? = some row.market ∧
      row.market = helper.volatility ∧
      lib.modelValue curve m1 helper = .ok npv ∧
      lib.impliedVolatility curve helper npv 1e-4 1000 impliedVolMin impliedVolMax
        = .ok row.implied ∧
      row.diff = row.implied - row.market := by
  obtain ⟨helper, hget, hmk⟩ := (swaptionLoop_spec lib curve swaptions times hmain).2 i hi
  obtain ⟨row, hrow, helper', npv, hget', hnpv, himp, hmarket, hdiff, _, _⟩ :=
    (calibrateModel_spec lib curve m0 m1 swaptions rows hcal).2.2 i hi
  have hsame : helper' = helper := by
    rw [hget] at hget'
    exact (Option.some.inj hget').symm
  rw [hsame] at hnpv himp
  have hvol := (makeHelper_eq_ok i helper hmk).1
  rw [← hk] at hvol hmarket
  have heq : row.market = helper.volatility := by
    rw [hvol] at hmarket
    exact (Option.some.inj hmarket).symm
  exact ⟨helper, row, npv, hget, hrow, hvol, hmarket, heq, hnpv, himp, hdiff⟩

/-- Instance of C1: row 3 (cell 20) under `exampleLibrary`. -/
theorem report_market_is_helper_quote_witness :
    ∃ helper row npv, exampleSwaptions[3]? = some helper ∧ exampleRows[3]? = some row ∧
      swaptionVols[20]? = some helper.volatility ∧
      swaptionVols[20]? = some row.market ∧
      row.market = helper.volatility ∧
      exampleLibrary.modelValue () ⟨0.05, 0.009, 0.5, 0.011, -0.7⟩ helper = .ok npv ∧
      exampleLibrary.impliedVolatility () helper npv 1e-4 1000 impliedVolMin impliedVolMax
        = .ok row.implied ∧
      row.diff = row.implied - row.market :=
  report_market_is_helper_quote exampleLibrary () ⟨0.1, 0.01, 0.1, 0.01, -0.75⟩
    ⟨0.05, 0.009, 0.5, 0.011, -0.7⟩ exampleSwaptions [] exampleRows
    exampleLibrary_swaptionLoop exampleLibrary_calibrateModel 3 20 (by decide) (by decide)

/-! ## Exit status (C2) -/

/-- C2: `main` returns 0 exactly when every stage of the `try` block completes;
when a stage throws, a `std::exception` or any other value, `main` returns 1,
so no exception leaves `main` and every failure by exception gives a non-zero
exit status. -/
theorem main_exit_status (lib : Library) :
    (main lib = some 0 ↔ ∃ out, Completes lib out) ∧
    (∀ what, FailsWith lib (.stdException what) → main lib = some 1) ∧
    (FailsWith lib .other → main lib = some 1) ∧
    (∀ e, mainBody lib = .error e → e ≠ .undefinedBehaviour → main lib = some 1) := by
  refine ⟨?_, ?_, ?_, ?_⟩
  · constructor
    · intro h
      unfold main at h
      cases hb : mainBody lib with
      | ok out => exact ⟨out, (mainBody_eq_ok lib out).mp hb⟩
      | error e =>
        rw [hb] at h
        cases e <;> simp at h
    · rintro ⟨out, hout⟩
      unfold main
      rw [(mainBody_eq_ok lib out).mpr hout]
  · intro what h
    unfold main
    rw [(mainBody_eq_error lib _).mpr h]
  · intro h
    unfold main
    rw [(mainBody_eq_error lib _).mpr h]
  · intro e h hne
    unfold main
    rw [h]
    cases e with
    | stdException w => rfl
    | other => rfl
    | undefinedBehaviour => exact absurd rfl hne

/-! ## The exercise dates (C3) -/

/-- C3: for a fixed leg whose cash flows are all coupons, the loop completes and
`bermudanDates` is the list of the accrual start dates of the coupons of the
leg, in the same order and of the same length; so every exercise date is the
accrual start date of a coupon of the leg, the date at position `i` is that of
cash flow `i`, and the dates are strictly increasing when the accrual start
dates along the leg are. -/
theorem bermudanDates_eq_accrualStarts (leg : List CashFlow)
    (hall : ∀ cf, cf ∈ leg → ∃ c, cf = .coupon c) :
    ∃ dates, bermudanDates leg = .ok dates ∧
      dates = accrualStartDates leg ∧
      dates.length = leg.length ∧
      (∀ (i : Nat) (c : Coupon), leg[i]? = some (CashFlow.coupon c) →
        dates[i]? = some c.accrualStartDate) ∧
      (∀ d, d ∈ dates → ∃ c, CashFlow.coupon c ∈ leg ∧ c.accrualStartDate = d) ∧
      (List.Pairwise (fun x y => ∀ c c', x = CashFlow.coupon c → y = CashFlow.coupon c' →
          c.accrualStartDate < c'.accrualStartDate) leg →
        List.Pairwise (fun d d' => d < d') dates) := by
  have hrun := exerciseLoop_spec leg hall leg.length 0 [] (by omega)
  simp only [List.drop_zero, List.take_length, List.nil_append] at hrun
  have hmap : accrualStartDates leg
      = leg.map (fun cf => match cf with
          | .coupon c => c.accrualStartDate
          | .simple _ _ => 0) := by
    clear hrun
    induction leg with
    | nil => rfl
    | cons x xs ih =>
      have hx := hall x (List.mem_cons_self x xs)
      obtain ⟨c, rfl⟩ := hx
      have ih' := ih (fun cf hcf => hall cf (List.mem_cons_of_mem _ hcf))
      unfold accrualStartDates at ih' ⊢
      have hstep : List.filterMap
          (fun cf => Option.map Coupon.accrualStartDate (dynamicPointerCastCoupon cf))
          (CashFlow.coupon c :: xs)
          = c.accrualStartDate :: List.filterMap
            (fun cf => Option.map Coupon.accrualStartDate (dynamicPointerCastCoupon cf)) xs :=
        List.filterMap_cons_some rfl
      rw [hstep, ih']
      rfl
  refine ⟨accrualStartDates leg, hrun, rfl, ?_, ?_, ?_, ?_⟩
  · rw [hmap, List.length_map]
  · intro i c hic
    rw [hmap, List.getElem?_map, hic]
    rfl
  · intro d hd
    rw [hmap, List.mem_map] at hd
    obtain ⟨cf, hcf, hd⟩ := hd
    obtain ⟨c, rfl⟩ := hall cf hcf
    exact ⟨c, hcf, hd⟩
  · intro hp
    rw [hmap, List.pairwise_map]
    refine hp.imp_of_mem ?_
    intro x y hx hy hxy
    obtain ⟨c, rfl⟩ := hall x hx
    obtain ⟨c', rfl⟩ := hall y hy
    exact hxy c c' rfl rfl

/-- Instance of C3 on a leg of three coupons. -/
theorem bermudanDates_eq_accrualStarts_witness :
    ∃ dates, bermudanDates exampleLeg = .ok dates ∧
      dates = accrualStartDates exampleLeg ∧
      dates.length = exampleLeg.length ∧
      (∀ (i : Nat) (c : Coupon), exampleLeg[i]? = some (CashFlow.coupon c) →
        dates[i]? = some c.accrualStartDate) ∧
      (∀ d, d ∈ dates → ∃ c, CashFlow.coupon c ∈ exampleLeg ∧ c.accrualStartDate = d) ∧
      (List.Pairwise (fun x y => ∀ c c', x = CashFlow.coupon c → y = CashFlow.coupon c' →
          c.accrualStartDate < c'.accrualStartDate) exampleLeg →
        List.Pairwise (fun d d' => d < d') dates) :=
  bermudanDates_eq_accrualStarts exampleLeg (by
    intro cf hcf
    simp only [exampleLeg, List.mem_cons, List.mem_singleton, List.not_mem_nil, or_false] at hcf
    rcases hcf with rfl | rfl | rfl <;> exact ⟨_, rfl⟩)

/-- A cash flow that is no coupon makes the exercise loop dereference a null
pointer. -/
theorem bermudanDates_of_simple (paymentDate : Date) (amount : ℚ) :
    bermudanDates [.simple paymentDate amount] = .error .undefinedBehaviour := by
  rfl

/-! ## The curve instruments (C4) -/

/-- C4: the instrument list handed to the bootstrap has 8 OIS nodes, one for
each entry of `longOisQuotes` with the rate quoted for its tenor, in strictly
increasing tenor order without a repeated tenor: 3, 6, 12, 24, 36, 48, 60 and
84 months. -/
theorem sofrInstruments_ordered :
    sofrInstruments.length = 8 ∧ longOisQuotes.length = 8 ∧
    longOisQuotes = longOisQuotesInit ∧
    sofrInstruments.map (fun h => (h.tenor, h.quote)) = longOisQuotes ∧
    (∀ h, h ∈ sofrInstruments → h.settlementDays = 2) ∧
    sofrInstruments.map (fun h => h.tenor.months) = [3, 6, 12, 24, 36, 48, 60, 84] ∧
    List.Pairwise (fun a b => a < b) (sofrInstruments.map (fun h => h.tenor.months)) ∧
    List.Pairwise (fun p q => Period.lt p q = true) (sofrInstruments.map (fun h => h.tenor)) ∧
    (sofrInstruments.map (fun h => h.tenor)).Nodup := by
  rw [sofrInstruments_eq]
  refine ⟨rfl, rfl, rfl, rfl, ?_, rfl, ?_, ?_, ?_⟩
  · intro h hh
    simp only [List.mem_cons, List.mem_singleton, List.not_mem_nil, or_false] at hh
    rcases hh with rfl | rfl | rfl | rfl | rfl | rfl | rfl | rfl <;> rfl
  · simp [Period.months]
  · simp [Period.lt]
  · decide

/-! ## Index arithmetic and the selected cells (C5) -/

/-- C5: for every row `i < numRows` the unsigned computation of
`j = numCols - i - 1` does not wrap and gives `j < numCols`; `k = i*numCols + j`
does not wrap, is below `numRows*numCols = 36`, the length of `swaptionVols`,
and has row `k / numCols = i` and column `k % numCols = j`; another row selects
another column and another cell, every column is selected by some row, and the
subscripts `swapLengths[j]`, `swaptionVols[k]`, `swaptionMaturities[i]` are in
bounds. -/
theorem selected_index_in_bounds (i j k : Nat) (hi : i < numRows)
    (hj : j = Size.sub (Size.sub numCols i) 1)
    (hk : k = Size.add (Size.mul i numCols) j) :
    ((j : Int) = (numCols : Int) - (i : Int) - 1 ∧ j < numCols) ∧
    (k = i * numCols + j ∧ k < numRows * numCols) ∧
    (numRows * numCols = 36 ∧ swaptionVols.length = 36) ∧
    (k / numCols = i ∧ k % numCols = j) ∧
    (∀ i', i' < numRows → i' ≠ i →
      Size.sub (Size.sub numCols i') 1 ≠ j ∧
      Size.add (Size.mul i' numCols) (Size.sub (Size.sub numCols i') 1) ≠ k) ∧
    (∀ c, c < numCols → ∃ i', i' < numRows ∧ Size.sub (Size.sub numCols i') 1 = c) ∧
    (j < swapLengths.length ∧ k < swaptionVols.length ∧ i < swaptionMaturities.length) := by
  rw [hk, hj]
  clear hk hj
  simp only [numRows] at hi
  refine ⟨?_, ?_, ⟨by decide, by decide⟩, ?_, ?_, ?_, ?_⟩
  · interval_cases i <;> decide
  · interval_cases i <;> decide
  · interval_cases i <;> decide
  · intro i' hi' hne
    simp only [numRows] at hi'
    interval_cases i <;> interval_cases i' <;> first | exact absurd rfl hne | decide
  · intro c hc
    simp only [numCols] at hc
    interval_cases c
    · exact ⟨5, by decide, by decide⟩
    · exact ⟨4, by decide, by decide⟩
    · exact ⟨3, by decide, by decide⟩
    · exact ⟨2, by decide, by decide⟩
    · exact ⟨1, by decide, by decide⟩
    · exact ⟨0, by decide, by decide⟩
  · interval_cases i <;> decide

/-- Instance of C5 at row 3: column 2, cell 20. -/
theorem selected_index_in_bounds_witness :
    (((2 : Nat) : Int) = (numCols : Int) - ((3 : Nat) : Int) - 1 ∧ 2 < numCols) ∧
    (20 = 3 * numCols + 2 ∧ 20 < numRows * numCols) ∧
    (numRows * numCols = 36 ∧ swaptionVols.length = 36) ∧
    (20 / numCols = 3 ∧ 20 % numCols = 2) ∧
    (∀ i', i' < numRows → i' ≠ 3 →
      Size.sub (Size.sub numCols i') 1 ≠ 2 ∧
      Size.add (Size.mul i' numCols) (Size.sub (Size.sub numCols i') 1) ≠ 20) ∧
    (∀ c, c < numCols → ∃ i', i' < numRows ∧ Size.sub (Size.sub numCols i') 1 = c) ∧
    (2 < swapLengths.length ∧ 20 < swaptionVols.length ∧ 3 < swaptionMaturities.length) :=
  selected_index_in_bounds 3 2 20 (by decide) (by decide) (by decide)

/-! ## Model parameters (C6) -/

/-- A completed engine loop, under the frame of the spec: every helper has got
an engine on `modelG2` and every call has left the heap as it was. -/
theorem engineLoop_spec (lib : SharedLibrary) (hspec : FollowsSpec lib) (modelG2 : ModelRef)
    (swaptions : List SwaptionHelper) (heap : Heap) (n : Nat)
    (helpers : List (SwaptionHelper × Engine)) (run : Run)
    (h : forRange (engineLoopBody lib modelG2 swaptions) swaptions.length 0
      ([], ⟨heap, List.replicate (n + 1) heap⟩) = .ok (helpers, run)) :
    helpers = swaptions.map (fun s => (s, Engine.g2Swaption modelG2 6.0 16)) ∧
    run.heap = heap ∧ run.log = List.replicate (n + 1 + swaptions.length) heap := by
  have key := forRange_inv (engineLoopBody lib modelG2 swaptions)
    (fun i s => s.1 = (swaptions.take i).map (fun s => (s, Engine.g2Swaption modelG2 6.0 16)) ∧
      s.2.heap = heap ∧ s.2.log = List.replicate (n + 1 + i) heap)
    (by
      intro i s s' hP hb
      unfold engineLoopBody at hb
      simp only [bind_eq_ok, index_eq_ok] at hb
      obtain ⟨helper, hhelper, heap', hengine, hp⟩ := hb
      simp only [pure, Except.pure, Except.ok.injEq] at hp
      subst hp
      obtain ⟨h1, h2, h3⟩ := hP
      have hsame : heap' = heap := by
        rw [← h2]
        exact hspec.1 _ _ _ hengine
      subst hsame
      refine ⟨?_, rfl, ?_⟩
      · show s.1 ++ [(helper, Engine.g2Swaption modelG2 6.0 16)] = _
        rw [List.take_succ, hhelper, h1]
        simp
      · show s.2.log ++ [heap'] = _
        rw [h3, ← List.replicate_succ']
        rfl)
    swaptions.length 0 ([], ⟨heap, List.replicate (n + 1) heap⟩) (helpers, run)
    ⟨rfl, rfl, rfl⟩ h
  simpa using key

/-- A completed `calibrateModel`, under the frame of the spec: the `calibrate`
call leaves a heap that every call of the report loop leaves as it is. -/
theorem sharedCalibrateModel_spec (lib : SharedLibrary) (hspec : FollowsSpec lib)
    (run run' : Run) (model : ModelRef) (swaptions : List (SwaptionHelper × Engine))
    (rows : List ReportRow)
    (h : sharedCalibrateModel lib run model swaptions = .ok (rows, run')) :
    ∃ calibrated, lib.calibrate run.heap model swaptions ⟨400, 100, 1.0e-8, 1.0e-8, 1.0e-8⟩
        = .ok calibrated ∧
      run'.heap = calibrated ∧
      run'.log = run.log ++ List.replicate (1 + 2 * numRows) calibrated := by
  unfold sharedCalibrateModel at h
  simp only [bind_eq_ok] at h
  obtain ⟨calibrated, hcal, hloop⟩ := h
  refine ⟨calibrated, hcal, ?_⟩
  have key := forRange_inv (sharedReportLoopBody lib swaptions)
    (fun i s => s.2.heap = calibrated ∧
      s.2.log = run.log ++ List.replicate (1 + 2 * i) calibrated)
    (by
      intro i s s' hP hb
      unfold sharedReportLoopBody at hb
      simp only [bind_eq_ok, index_eq_ok, Prod.exists] at hb
      obtain ⟨helper, engine, _, npv, heap1, hnpv, implied, heap2, himp, market, _, len, _, hp⟩
        := hb
      simp only [pure, Except.pure, Except.ok.injEq] at hp
      subst hp
      obtain ⟨h1, h2⟩ := hP
      have e1 : heap1 = calibrated := by
        rw [← h1]
        exact hspec.2.1 _ _ _ _ hnpv
      subst e1
      have e2 : heap2 = heap1 := hspec.2.2.1 _ _ _ _ _ _ _ _ _ himp
      subst e2
      refine ⟨rfl, ?_⟩
      show (s.2.log ++ [heap2]) ++ [heap2] = _
      rw [h2, List.append_assoc, List.append_assoc, ← List.append_assoc _ [heap2] [heap2],
        ← List.replicate_succ', ← List.replicate_succ']
      have e : 1 + 2 * (i + 1) = 1 + 2 * i + 1 + 1 := by omega
      rw [e])
    numRows 0 ([], run.record calibrated) (rows, run') ⟨rfl, by simp [Run.record]⟩ hloop
  simpa using key

/-- C6: for a library with the frame of the spec, in a run of lines 144-203 that
completes, one model object is created, with parameters `created`; the
construction and the engine given to each helper leave it as it is; the one
`calibrate` call, made inside `calibrateModel` on that object, replaces
`created` by `calibrated`; each of the 16 later calls that are handed the
model, the report loop, the two engine constructions and the two prices, leaves
`calibrated` in place.  The parameters printed are `calibrated`, the tree
engine and the finite-difference engine are constructed on the reference that
was calibrated and price the same swaption, and both prices are computed on the
heap that holds `calibrated`. -/
theorem model_changed_only_by_calibrate (lib : SharedLibrary) (hspec : FollowsSpec lib)
    (curve : lib.Curve) (swaptions : List SwaptionHelper) (out : SharedOutput)
    (h : sharedModelRun lib curve swaptions = .ok out) :
    ∃ (created calibrated : G2Params) (bermudan : lib.Swaption),
      lib.g2 curve = .ok created ∧
      lib.calibrate [created] 0
          (swaptions.map (fun s => (s, Engine.g2Swaption 0 6.0 16)))
          ⟨400, 100, 1.0e-8, 1.0e-8, 1.0e-8⟩ = .ok [calibrated] ∧
      out.log = List.replicate (1 + swaptions.length) [created]
        ++ List.replicate (1 + 2 * numRows + 4) [calibrated] ∧
      out.params = calibrated ∧
      lib.bermudanSwaption curve = .ok bermudan ∧
      out.treeEngine = .treeSwaption 0 50 ∧
      out.fdEngine = .fdG2Swaption 0 ∧
      lib.npv [calibrated] bermudan (.treeSwaption 0 50) = .ok (out.treeNPV, [calibrated]) ∧
      lib.npv [calibrated] bermudan (.fdG2Swaption 0) = .ok (out.fdNPV, [calibrated]) := by
  unfold sharedModelRun at h
  simp only [bind_eq_ok, index_eq_ok, Prod.exists, List.nil_append, List.length_nil] at h
  obtain ⟨created, hcreated, helpers, run1, hloop, report, run2, hcal, params, hparams,
    bermudan, hberm, heap3, he3, tree, heap4, htree, heap5, he5, fd, heap6, hfd, hp⟩ := h
  simp only [pure, Except.pure, Except.ok.injEq] at hp
  subst hp
  obtain ⟨hhelpers, hheap1, hlog1⟩ :=
    engineLoop_spec lib hspec 0 swaptions [created] 0 helpers run1 hloop
  obtain ⟨heapc, hcalibrate, hheap2, hlog2⟩ :=
    sharedCalibrateModel_spec lib hspec run1 run2 0 helpers report hcal
  rw [hheap1] at hcalibrate
  obtain ⟨calibrated, hc⟩ : ∃ calibrated, heapc = [calibrated] := by
    have hlen := (hspec.2.2.2.2 _ _ _ _ _ hcalibrate).1
    exact List.length_eq_one.mp (by simpa using hlen)
  subst hc
  rw [hheap2] at hparams he3
  have hparams' : params = calibrated := by
    simp only [List.getElem?_cons_zero, Option.some.injEq] at hparams
    exact hparams.symm
  subst hparams'
  have e3 : heap3 = [params] := hspec.1 _ _ _ he3
  subst e3
  simp only [Run.record] at htree he5 hfd
  have e4 : heap4 = [params] := hspec.2.2.2.1 _ _ _ _ _ htree
  subst e4
  have e5 : heap5 = [params] := hspec.1 _ _ _ he5
  subst e5
  have e6 : heap6 = [params] := hspec.2.2.2.1 _ _ _ _ _ hfd
  subst e6
  refine ⟨created, params, bermudan, hcreated, ?_, ?_, rfl, hberm, rfl, rfl, htree, hfd⟩
  · rw [← hhelpers]
    exact hcalibrate
  · simp only [Run.record]
    rw [hlog2, hlog1]
    have e : 1 + 2 * numRows + 4 = 1 + 2 * numRows + 1 + 1 + 1 + 1 := by omega
    rw [e, List.replicate_succ', List.replicate_succ', List.replicate_succ',
      List.replicate_succ']
    simp only [List.append_assoc, Nat.zero_add]

/-- The example library follows the frame of the spec. -/
theorem exampleSharedLibrary_followsSpec : FollowsSpec exampleSharedLibrary := by
  refine ⟨?_, ?_, ?_, ?_, ?_⟩
  · intro heap engine heap' h
    exact (Except.ok.inj h).symm
  · intro heap helper value heap' h
    exact (Prod.mk.inj (Except.ok.inj h)).2.symm
  · intro heap helper target accuracy evaluations lo hi value heap' h
    exact (Prod.mk.inj (Except.ok.inj h)).2.symm
  · intro heap swaption engine value heap' h
    cases engine with
    | g2Swaption model range intervals => exact absurd h (by simp [exampleSharedLibrary])
    | treeSwaption model steps =>
      simp only [exampleSharedLibrary] at h
      cases hm : heap[model]? with
      | none => simp [hm] at h
      | some p =>
        simp only [hm, Except.ok.injEq, Prod.mk.injEq] at h
        exact h.2.symm
    | fdG2Swaption model =>
      simp only [exampleSharedLibrary] at h
      cases hm : heap[model]? with
      | none => simp [hm] at h
      | some p =>
        simp only [hm, Except.ok.injEq, Prod.mk.injEq] at h
        exact h.2.symm
  · intro heap model helpers criteria heap' h
    have e := Except.ok.inj h
    subst e
    refine ⟨List.length_set _ _ _, ?_⟩
    intro r hr
    exact List.getElem?_set_ne (Ne.symm hr)

/-- The run of lines 144-203 under `exampleSharedLibrary`. -/
theorem exampleSharedLibrary_run :
    sharedModelRun exampleSharedLibrary () exampleSwaptions = .ok exampleSharedOutput := by
  rfl

/-- Instance of C6 under `exampleSharedLibrary`, on the six helpers of `main`. -/
theorem model_changed_only_by_calibrate_witness :
    ∃ (created calibrated : G2Params) (bermudan : exampleSharedLibrary.Swaption),
      exampleSharedLibrary.g2 () = .ok created ∧
      exampleSharedLibrary.calibrate [created] 0
          (exampleSwaptions.map (fun s => (s, Engine.g2Swaption 0 6.0 16)))
          ⟨400, 100, 1.0e-8, 1.0e-8, 1.0e-8⟩ = .ok [calibrated] ∧
      exampleSharedOutput.log = List.replicate (1 + exampleSwaptions.length) [created]
        ++ List.replicate (1 + 2 * numRows + 4) [calibrated] ∧
      exampleSharedOutput.params = calibrated ∧
      exampleSharedLibrary.bermudanSwaption () = .ok bermudan ∧
      exampleSharedOutput.treeEngine = .treeSwaption 0 50 ∧
      exampleSharedOutput.fdEngine = .fdG2Swaption 0 ∧
      exampleSharedLibrary.npv [calibrated] bermudan (.treeSwaption 0 50)
        = .ok (exampleSharedOutput.treeNPV, [calibrated]) ∧
      exampleSharedLibrary.npv [calibrated] bermudan (.fdG2Swaption 0)
        = .ok (exampleSharedOutput.fdNPV, [calibrated]) :=
  model_changed_only_by_calibrate exampleSharedLibrary exampleSharedLibrary_followsSpec ()
    exampleSwaptions exampleSharedOutput exampleSharedLibrary_run

/-- Outside the frame of the spec the property is lost: under
`perturbingLibrary` the run completes, the tree price is computed from
`sigma = 0.009` and the finite-difference price from `sigma = 2 * 0.009`. -/
theorem perturbingLibrary_run :
    ¬ FollowsSpec perturbingLibrary ∧
    ∃ out, sharedModelRun perturbingLibrary () exampleSwaptions = .ok out ∧
      out.treeNPV = 100 * 0.009 ∧ out.fdNPV = 101 * (2 * 0.009) := by
  constructor
  · intro h
    have h4 := h.2.2.2.1 [⟨0, 1, 0, 0, 0⟩] [] (.treeSwaption 0 50) (100 * 1)
      [⟨0, 2 * 1, 0, 0, 0⟩] rfl
    have hs := congrArg (fun heap : Heap => heap.map G2Params.sigma) h4
    simp at hs
  · exact ⟨_, rfl, rfl, rfl⟩

/-! ## The instruments built (C8) -/

/-- C8, evaluated: the helpers at indices 0 to 4 have option maturities 1 to 5
years and swap lengths 7, 5, 4, 3 and 2 years, none of them `5 - i` years. -/
theorem helper_swap_lengths :
    (List.range 5).map (fun i => (makeHelper i).toOption.map
        (fun h => (h.maturity, h.length)))
      = [some (⟨1, .Years⟩, ⟨7, .Years⟩), some (⟨2, .Years⟩, ⟨5, .Years⟩),
         some (⟨3, .Years⟩, ⟨4, .Years⟩), some (⟨4, .Years⟩, ⟨3, .Years⟩),
         some (⟨5, .Years⟩, ⟨2, .Years⟩)] ∧
    ∀ i, i < 5 → ∀ h, makeHelper i = .ok h → h.length ≠ ⟨5 - (i : Int), .Years⟩ := by
  obtain ⟨h0, h1, h2, h3, h4, _⟩ := makeHelper_values
  constructor
  · simp only [List.range, List.range.loop, List.map, h0, h1, h2, h3, h4, Except.toOption,
      Option.map]
  · intro i hi h hmk
    interval_cases i
    · rw [h0] at hmk
      rw [← Except.ok.inj hmk]
      decide
    · rw [h1] at hmk
      rw [← Except.ok.inj hmk]
      decide
    · rw [h2] at hmk
      rw [← Except.ok.inj hmk]
      decide
    · rw [h3] at hmk
      rw [← Except.ok.inj hmk]
      decide
    · rw [h4] at hmk
      rw [← Except.ok.inj hmk]
      decide

/-! ## The selected volatilities (C9) -/

/-- C9: for every row `i < numRows` the market volatility selected for
calibration, `swaptionVols[i*numCols + (numCols - i - 1)]`, lies in
[0.10, 0.45], and every volatility within 0.05 of it lies in the bracket
[0.05, 0.50] passed to `impliedVolatility`. -/
theorem selected_vol_in_bracket (i k : Nat) (hi : i < numRows)
    (hk : k = Size.add (Size.mul i numCols) (Size.sub (Size.sub numCols i) 1)) :
    ∃ m : ℚ, swaptionVols[k]? = some m ∧ (0.10 : ℚ) ≤ m ∧ m ≤ (0.45 : ℚ) ∧
      impliedVolMin = 0.05 ∧ impliedVolMax = 0.50 ∧
      ∀ v : ℚ, |v - m| ≤ (0.05 : ℚ) → impliedVolMin ≤ v ∧ v ≤ impliedVolMax := by
  obtain ⟨h0, h1, h2, h3, h4, h5⟩ := selected_cells
  have key : ∀ m : ℚ, swaptionVols[k]? = some m → (0.10 : ℚ) ≤ m → m ≤ (0.45 : ℚ) →
      ∃ m : ℚ, swaptionVols[k]? = some m ∧ (0.10 : ℚ) ≤ m ∧ m ≤ (0.45 : ℚ) ∧
        impliedVolMin = 0.05 ∧ impliedVolMax = 0.50 ∧
        ∀ v : ℚ, |v - m| ≤ (0.05 : ℚ) → impliedVolMin ≤ v ∧ v ≤ impliedVolMax :=
    fun m hm hlo hhi => ⟨m, hm, hlo, hhi, rfl, rfl, fun v hv => bracket_of_near m v hlo hhi hv⟩
  simp only [numRows] at hi
  interval_cases i
  · rw [h0] at hk
    subst hk
    exact key 0.3428 (by simp [swaptionVols]) (by norm_num) (by norm_num)
  · rw [h1] at hk
    subst hk
    exact key 0.3557 (by simp [swaptionVols]) (by norm_num) (by norm_num)
  · rw [h2] at hk
    subst hk
    exact key 0.3560 (by simp [swaptionVols]) (by norm_num) (by norm_num)
  · rw [h3] at hk
    subst hk
    exact key 0.3407 (by simp [swaptionVols]) (by norm_num) (by norm_num)
  · rw [h4] at hk
    subst hk
    exact key 0.3261 (by simp [swaptionVols]) (by norm_num) (by norm_num)
  · rw [h5] at hk
    subst hk
    exact key 0.2863 (by simp [swaptionVols]) (by norm_num) (by norm_num)

/-- Instance of C9 at row 3, cell 20. -/
theorem selected_vol_in_bracket_witness :
    ∃ m : ℚ, swaptionVols[20]? = some m ∧ (0.10 : ℚ) ≤ m ∧ m ≤ (0.45 : ℚ) ∧
      impliedVolMin = 0.05 ∧ impliedVolMax = 0.50 ∧
      ∀ v : ℚ, |v - m| ≤ (0.05 : ℚ) → impliedVolMin ≤ v ∧ v ≤ impliedVolMax :=
  selected_vol_in_bracket 3 20 (by decide) (by decide)

/-! ## The report labels (C10) -/

/-- C10, at row 5: in a run where the helper loop and `calibrateModel`
complete, the sixth helper has option maturity 7 years and swap length 1 year,
and the sixth report row is labelled 6 x 1. -/
theorem sixth_label_is_six_by_one (lib : Library) (curve : lib.Curve)
    (m0 m1 : G2Params) (swaptions : List SwaptionHelper) (times : List ℚ)
    (rows : List ReportRow)
    (hmain : swaptionLoop lib curve = .ok (swaptions, times))
    (hcal : calibrateModel lib curve m0 swaptions = .ok (m1, rows)) :
    ∃ helper row, swaptions[5]? = some helper ∧ rows[5]? = some row ∧
      helper.maturity = ⟨7, .Years⟩ ∧ helper.length = ⟨1, .Years⟩ ∧
      row.optionLabel = 6 ∧ row.swapLabel = 1 ∧
      helper.maturity ≠ ⟨(row.optionLabel : Int), .Years⟩ := by
  obtain ⟨helper, hget, hmk⟩ :=
    (swaptionLoop_spec lib curve swaptions times hmain).2 5 (by decide)
  obtain ⟨row, hrow, _, _, _, _, _, _, _, hlabel, hswap⟩ :=
    (calibrateModel_spec lib curve m0 m1 swaptions rows hcal).2.2 5 (by decide)
  rw [makeHelper_values.2.2.2.2.2] at hmk
  have hh := Except.ok.inj hmk
  subst hh
  have h6 : Size.add 5 1 = 6 := by decide
  have h0 : Size.sub (Size.sub numCols 5) 1 = 0 := by decide
  rw [h6] at hlabel
  rw [h0] at hswap
  have h1 : row.swapLabel = 1 := by
    have : swapLengths[0]? = some (1 : Int) := rfl
    rw [this] at hswap
    exact (Option.some.inj hswap).symm
  refine ⟨_, row, hget, hrow, rfl, rfl, hlabel, h1, ?_⟩
  rw [hlabel]
  decide

/-- Instance of the statement on row 5 under `exampleLibrary`. -/
theorem sixth_label_is_six_by_one_witness :
    ∃ helper row, exampleSwaptions[5]? = some helper ∧ exampleRows[5]? = some row ∧
      helper.maturity = ⟨7, .Years⟩ ∧ helper.length = ⟨1, .Years⟩ ∧
      row.optionLabel = 6 ∧ row.swapLabel = 1 ∧
      helper.maturity ≠ ⟨(row.optionLabel : Int), .Years⟩ :=
  sixth_label_is_six_by_one exampleLibrary () ⟨0.1, 0.01, 0.1, 0.01, -0.75⟩
    ⟨0.05, 0.009, 0.5, 0.011, -0.7⟩ exampleSwaptions [] exampleRows
    exampleLibrary_swaptionLoop exampleLibrary_calibrateModel

end BermudanSwaption
